import Mathlib

/-!
Verification development for the assembler0-simulator teleoperation
front-end: gamepad signal conditioning (`useGamepad.ts`), the control
throttler (`useGamepadControl`), the outbound message queue
(`gamepadService.ts`) and the WebSocket session (`SimulatorWebSocket`).
JavaScript numbers are modelled as rationals; timer bookkeeping and the
message queue are modelled as explicit state passing.
-/

namespace Assembler0

/-! ## Signal conditioner (useGamepad.ts, applyDeadzone) -/

/-- `applyDeadzone` from `useGamepad.ts`:
if `|value| < deadzone` return 0, else
`sign * ((|value| - deadzone) / (1 - deadzone))` where
`sign = value > 0 ? 1 : -1`. -/
def applyDeadzone (value deadzone : ℚ) : ℚ :=
  if |value| < deadzone then 0
  else (if 0 < value then 1 else -1) * ((|value| - deadzone) / (1 - deadzone))

/-- The full conditioning applied at the call sites of `applyDeadzone`
(`useGamepad.ts` lines 65-68 and 94): deadzone removal followed by a
sensitivity gain factor. -/
def condition (raw deadzone gain : ℚ) : ℚ :=
  applyDeadzone raw deadzone * gain

theorem applyDeadzone_of_lt (v d : ℚ) (h : |v| < d) : applyDeadzone v d = 0 := by
  simp [applyDeadzone, h]

theorem applyDeadzone_self (d : ℚ) (hd : 0 ≤ d) : applyDeadzone d d = 0 := by
  unfold applyDeadzone
  rcases lt_or_eq_of_le hd with h | h
  · rw [abs_of_pos h]
    simp [lt_irrefl, h]
  · simp [← h]

/-- magnitude bound used both for the continuity argument and the
range invariant: the conditioned value is bounded by
`|(|v| - d)| / (1 - d)`. -/
theorem abs_applyDeadzone_le (v d : ℚ) (hd0 : 0 ≤ d) (hd1 : d < 1) :
    |applyDeadzone v d| ≤ |(|v| - d)| / (1 - d) := by
  have h1d : (0:ℚ) < 1 - d := by linarith
  unfold applyDeadzone
  split
  · positivity
  · rename_i hge
    push_neg at hge
    have hnum : (0:ℚ) ≤ |v| - d := by linarith
    have habs : |(|v| - d)| = |v| - d := abs_of_nonneg hnum
    rw [abs_mul, abs_div, habs, abs_of_pos h1d]
    have hsign : |if 0 < v then (1:ℚ) else -1| = 1 := by
      split <;> norm_num
    rw [hsign, one_mul]

theorem applyDeadzone_boundary (c d : ℚ) (hc : |c| = d) : applyDeadzone c d = 0 := by
  unfold applyDeadzone
  rw [hc]
  simp

/-- C2: for `deadzone ∈ [0,1)` the conditioner returns exactly 0 below the
deadzone, otherwise `sign(raw) * ((|raw| - deadzone) / (1 - deadzone)) * gain`;
`condition(0.5, 0.1, 1.0) = (0.5-0.1)/(1-0.1)`; and the mapping is continuous
(ε-δ) at every boundary point `|raw| = deadzone`. -/
theorem condition_spec (d g : ℚ) (hd0 : 0 ≤ d) (hd1 : d < 1) :
    (∀ raw, |raw| < d → condition raw d g = 0) ∧
    (∀ raw, d ≤ |raw| →
      condition raw d g =
        (if 0 < raw then (1:ℚ) else if raw < 0 then -1 else 0) *
          ((|raw| - d) / (1 - d)) * g) ∧
    condition (1/2) (1/10) 1 = (1/2 - 1/10) / (1 - 1/10) ∧
    (∀ c, |c| = d → ∀ ε : ℚ, 0 < ε → ∃ δ : ℚ, 0 < δ ∧
      ∀ x, |x - c| < δ → |condition x d g - condition c d g| < ε) := by
  have h1d : (0:ℚ) < 1 - d := by linarith
  refine ⟨?_, ?_, ?_, ?_⟩
  · intro raw h
    simp [condition, applyDeadzone_of_lt raw d h]
  · intro raw h
    unfold condition applyDeadzone
    rw [if_neg (not_lt.mpr h)]
    rcases lt_trichotomy raw 0 with hneg | hzero | hpos
    · rw [if_neg (by linarith), if_neg (not_lt.mpr (le_of_lt hneg)), if_pos hneg]
    · subst hzero
      have hd' : d = 0 := le_antisymm (by simpa using h) hd0
      simp [hd']
    · rw [if_pos hpos, if_pos hpos]
  · unfold condition applyDeadzone
    rw [if_neg (by norm_num [abs_of_pos] : ¬ |(1:ℚ)/2| < 1/10)]
    rw [if_pos (by norm_num : (0:ℚ) < 1/2)]
    norm_num [abs_of_pos]
  · intro c hc ε hε
    have hg1 : (0:ℚ) < |g| + 1 := by positivity
    refine ⟨ε * (1 - d) / (|g| + 1), by positivity, ?_⟩
    intro x hx
    have hcd : condition c d g = 0 := by
      rw [condition, applyDeadzone_boundary c d hc, zero_mul]
    have hkey : |(|x| - d)| ≤ |x - c| := by
      rw [← hc]
      exact abs_abs_sub_abs_le_abs_sub x c
    have hA : |condition x d g| ≤ |x - c| * ((|g| + 1) / (1 - d)) := by
      rw [condition, abs_mul]
      calc |applyDeadzone x d| * |g|
          ≤ (|(|x| - d)| / (1 - d)) * |g| :=
            mul_le_mul_of_nonneg_right (abs_applyDeadzone_le x d hd0 hd1) (abs_nonneg g)
        _ ≤ (|x - c| / (1 - d)) * (|g| + 1) :=
            mul_le_mul ((div_le_div_iff_of_pos_right h1d).mpr hkey)
              (by linarith [abs_nonneg g]) (abs_nonneg g) (by positivity)
        _ = |x - c| * ((|g| + 1) / (1 - d)) := by ring
    have hgt : |x - c| * ((|g| + 1) / (1 - d)) <
        (ε * (1 - d) / (|g| + 1)) * ((|g| + 1) / (1 - d)) :=
      mul_lt_mul_of_pos_right hx (by positivity)
    have heq : (ε * (1 - d) / (|g| + 1)) * ((|g| + 1) / (1 - d)) = ε := by
      field_simp
    rw [hcd, sub_zero]
    calc |condition x d g| ≤ |x - c| * ((|g| + 1) / (1 - d)) := hA
      _ < (ε * (1 - d) / (|g| + 1)) * ((|g| + 1) / (1 - d)) := hgt
      _ = ε := heq

/-- Witness for `condition_spec` at `deadzone = 0.1`, `gain = 1`. -/
theorem condition_spec_witness :
    condition (1/2) (1/10) 1 = (1/2 - 1/10) / (1 - 1/10) ∧
    condition (1/20) (1/10) 1 = 0 := by
  have h := condition_spec (1/10) 1 (by norm_num) (by norm_num)
  exact ⟨h.2.2.1, h.1 (1/20) (by norm_num [abs_of_pos])⟩

/-! ## Data model (types/gamepad.ts) -/

structure Stick where
  x : ℚ
  y : ℚ
deriving DecidableEq

/-- `GamepadState['buttons']` from types/gamepad.ts: boolean buttons plus
the two analog triggers `lt`, `rt`. -/
structure GamepadButtons where
  a : Bool
  b : Bool
  x : Bool
  y : Bool
  lb : Bool
  rb : Bool
  lt : ℚ
  rt : ℚ
  back : Bool
  start : Bool
  leftStickButton : Bool
  rightStickButton : Bool
  dpadUp : Bool
  dpadDown : Bool
  dpadLeft : Bool
  dpadRight : Bool
  home : Bool
deriving DecidableEq

structure GamepadState where
  connected : Bool
  leftStick : Stick
  rightStick : Stick
  buttons : GamepadButtons
deriving DecidableEq

structure Sensitivity where
  leftStick : ℚ
  rightStick : ℚ
  triggers : ℚ
deriving DecidableEq

structure GamepadConfig where
  deadzone : ℚ
  sensitivity : Sensitivity
  invertY : Bool
deriving DecidableEq

def DEFAULT_GAMEPAD_CONFIG : GamepadConfig :=
  { deadzone := 1/10
    sensitivity := { leftStick := 1, rightStick := 1, triggers := 1 }
    invertY := false }

structure Deltas where
  x : ℚ
  y : ℚ
  z : ℚ
  wrist : ℚ
deriving DecidableEq

/-- `GamepadControlMessage` from types/gamepad.ts; the TS `gripper` field is
optional with values among the string literals "open", "close", "stay". -/
structure GamepadControlMessage where
  type : String
  deltas : Deltas
  gripper : Option String
  buttons : List (String × Bool)
deriving DecidableEq

/-! ## Device poller (useGamepad.ts, pollGamepad) -/

/-- One entry of the browser `gamepad.buttons` array. -/
structure RawButton where
  pressed : Bool
  value : ℚ
deriving DecidableEq

/-- The browser gamepad as read by `pollGamepad`: the four stick axes
`axes[0..3]` and the buttons array. -/
structure RawGamepad where
  axes0 : ℚ
  axes1 : ℚ
  axes2 : ℚ
  axes3 : ℚ
  buttons : List RawButton
deriving DecidableEq

/-- The named buttons of `GAMEPAD_BUTTON_MAPPING` (types/gamepad.ts). -/
inductive ButtonName where
  | a | b | x | y | lb | rb | lt | rt | back | start
  | leftStickButton | rightStickButton
  | dpadUp | dpadDown | dpadLeft | dpadRight | home
deriving DecidableEq

/-- `GAMEPAD_BUTTON_MAPPING` (types/gamepad.ts): raw button index to name. -/
def GAMEPAD_BUTTON_MAPPING : ℕ → Option ButtonName
  | 0 => some .a
  | 1 => some .b
  | 2 => some .x
  | 3 => some .y
  | 4 => some .lb
  | 5 => some .rb
  | 6 => some .lt
  | 7 => some .rt
  | 8 => some .back
  | 9 => some .start
  | 10 => some .leftStickButton
  | 11 => some .rightStickButton
  | 12 => some .dpadUp
  | 13 => some .dpadDown
  | 14 => some .dpadLeft
  | 15 => some .dpadRight
  | 16 => some .home
  | _ => none

/-- The all-off buttons literal used both as the initial `useState` value and
as the fresh per-poll `buttons` object (useGamepad.ts lines 17-35, 70-88). -/
def initButtons : GamepadButtons :=
  { a := false, b := false, x := false, y := false, lb := false, rb := false
    lt := 0, rt := 0, back := false, start := false
    leftStickButton := false, rightStickButton := false
    dpadUp := false, dpadDown := false, dpadLeft := false, dpadRight := false
    home := false }

/-- Body of the `gamepad.buttons.forEach` callback (useGamepad.ts 90-99):
trigger-typed entries store `button.value * sensitivity.triggers`, all other
mapped entries store `button.pressed`. -/
def setButton (bs : GamepadButtons) (name : ButtonName) (btn : RawButton)
    (trigSens : ℚ) : GamepadButtons :=
  match name with
  | .lt => { bs with lt := btn.value * trigSens }
  | .rt => { bs with rt := btn.value * trigSens }
  | .a => { bs with a := btn.pressed }
  | .b => { bs with b := btn.pressed }
  | .x => { bs with x := btn.pressed }
  | .y => { bs with y := btn.pressed }
  | .lb => { bs with lb := btn.pressed }
  | .rb => { bs with rb := btn.pressed }
  | .back => { bs with back := btn.pressed }
  | .start => { bs with start := btn.pressed }
  | .leftStickButton => { bs with leftStickButton := btn.pressed }
  | .rightStickButton => { bs with rightStickButton := btn.pressed }
  | .dpadUp => { bs with dpadUp := btn.pressed }
  | .dpadDown => { bs with dpadDown := btn.pressed }
  | .dpadLeft => { bs with dpadLeft := btn.pressed }
  | .dpadRight => { bs with dpadRight := btn.pressed }
  | .home => { bs with home := btn.pressed }

/-- The indexed `forEach` over the raw buttons array. -/
def readButtonsAux (trigSens : ℚ) : ℕ → List RawButton → GamepadButtons → GamepadButtons
  | _, [], bs => bs
  | i, btn :: rest, bs =>
    let bs' := match GAMEPAD_BUTTON_MAPPING i with
      | some name => setButton bs name btn trigSens
      | none => bs
    readButtonsAux trigSens (i + 1) rest bs'

def readButtons (btns : List RawButton) (trigSens : ℚ) : GamepadButtons :=
  readButtonsAux trigSens 0 btns initButtons

/-- The connected branch of `pollGamepad` (useGamepad.ts 65-106): condition
each axis with the deadzone and the per-group sensitivity (optionally
inverting Y) and rebuild the button map. -/
def readSnapshot (g : RawGamepad) (config : GamepadConfig) : GamepadState :=
  let leftX := applyDeadzone g.axes0 config.deadzone * config.sensitivity.leftStick
  let leftY := applyDeadzone g.axes1 config.deadzone * config.sensitivity.leftStick *
    (if config.invertY then -1 else 1)
  let rightX := applyDeadzone g.axes2 config.deadzone * config.sensitivity.rightStick
  let rightY := applyDeadzone g.axes3 config.deadzone * config.sensitivity.rightStick *
    (if config.invertY then -1 else 1)
  { connected := true
    leftStick := { x := leftX, y := leftY }
    rightStick := { x := rightX, y := rightY }
    buttons := readButtons g.buttons config.sensitivity.triggers }

/-- The binding loop of `pollGamepad` (useGamepad.ts 44-53): first non-null
slot index, if any. -/
def findFirstGamepad : List (Option RawGamepad) → Option ℕ
  | [] => none
  | some _ :: _ => some 0
  | none :: rest => (findFirstGamepad rest).map (· + 1)

/-- `gamepads[i]`: out-of-range access yields `undefined` (here `none`). -/
def getGamepadAt (gps : List (Option RawGamepad)) (i : ℕ) : Option RawGamepad :=
  gps.getD i none

/-- One iteration of `pollGamepad` (useGamepad.ts 41-110) as a function of
the gamepad array, the bound index ref and the previous state; returns the
new bound index and the new `gamepadState`. -/
def pollGamepad (gps : List (Option RawGamepad)) (config : GamepadConfig)
    (index : Option ℕ) (prev : GamepadState) : Option ℕ × GamepadState :=
  let idx := match index with
    | none => findFirstGamepad gps
    | some i => some i
  match idx with
  | none => (none, prev)
  | some i =>
    match getGamepadAt gps i with
    | none => (none, { prev with connected := false })
    | some g => (some i, readSnapshot g config)

/-! ## Command throttler (useGamepadControl.ts) -/

def CONTROL_UPDATE_RATE : ℚ := 60

def CONTROL_UPDATE_INTERVAL : ℚ := 1000 / CONTROL_UPDATE_RATE

def hasMovement (gs : GamepadState) : Bool :=
  decide (|gs.leftStick.x| > 1/100) || decide (|gs.leftStick.y| > 1/100) ||
  decide (|gs.rightStick.x| > 1/100) || decide (|gs.rightStick.y| > 1/100)

def hasGripperInput (gs : GamepadState) : Bool :=
  decide (gs.buttons.lt > 1/10) || decide (gs.buttons.rt > 1/10)

def buttonChanged (gs prev : GamepadState) : Bool :=
  (gs.buttons.a != prev.buttons.a) || (gs.buttons.x != prev.buttons.x) ||
  (gs.buttons.y != prev.buttons.y) || (gs.buttons.rb != prev.buttons.rb)

/-- Construction of the outbound control message
(useGamepadControl.ts 49-86): two-level speed multiplier, the four deltas,
the copied named-button subset, then the gripper assignment. -/
def buildControlMessage (gs : GamepadState) : GamepadControlMessage :=
  let speedMultiplier : ℚ := if gs.buttons.rb then 3/100 else 15/100
  let base : GamepadControlMessage :=
    { type := "gamepad_control"
      deltas :=
        { x := gs.leftStick.x * speedMultiplier
          y := -gs.leftStick.y * speedMultiplier
          z := -gs.rightStick.y * speedMultiplier
          wrist := gs.rightStick.x * speedMultiplier }
      gripper := none
      buttons :=
        [("a", gs.buttons.a), ("x", gs.buttons.x), ("y", gs.buttons.y),
         ("lb", gs.buttons.lb), ("rb", gs.buttons.rb),
         ("dpadUp", gs.buttons.dpadUp), ("dpadDown", gs.buttons.dpadDown),
         ("dpadLeft", gs.buttons.dpadLeft), ("dpadRight", gs.buttons.dpadRight)] }
  if gs.buttons.rt > 1/2 then { base with gripper := some "open" }
  else if gs.buttons.lt > 1/2 then { base with gripper := some "close" }
  else { base with gripper := some "stay" }

/-- The two refs of `useGamepadControl`. -/
structure ControlRefs where
  lastUpdateTime : ℚ
  previousState : Option GamepadState
deriving DecidableEq

/-- One run of the `useGamepadControl` effect (useGamepadControl.ts 15-93)
at time `now`: returns the message sent this tick (if any) and the
updated refs. -/
def controlStep (gs : GamepadState) (now : ℚ) (refs : ControlRefs) :
    Option GamepadControlMessage × ControlRefs :=
  if !gs.connected then (none, refs)
  else if now - refs.lastUpdateTime < CONTROL_UPDATE_INTERVAL then (none, refs)
  else
    let suppressed : Bool :=
      !hasMovement gs && !hasGripperInput gs &&
        (match refs.previousState with
          | some prev => !buttonChanged gs prev
          | none => false)
    if suppressed then (none, refs)
    else (some (buildControlMessage gs), ⟨now, some gs⟩)

/-! ## Throttler lemmas and sample states -/

/-- A sent tick always sends exactly `buildControlMessage gs`. -/
theorem controlStep_sent (gs : GamepadState) (now : ℚ) (refs : ControlRefs)
    (msg : GamepadControlMessage) (refs' : ControlRefs)
    (h : controlStep gs now refs = (some msg, refs')) :
    msg = buildControlMessage gs := by
  unfold controlStep at h
  split at h
  · simp at h
  · split at h
    · simp at h
    · split at h <;> dsimp only at h <;> split at h <;>
        first
        | exact Option.noConfusion (congrArg Prod.fst h)
        | exact (Option.some.inj (congrArg Prod.fst h)).symm

/-- Evaluation helper: a connected tick past the minimum interval with
movement or gripper input sends exactly `buildControlMessage gs`. -/
theorem controlStep_sends (gs : GamepadState) (now : ℚ) (refs : ControlRefs)
    (hc : gs.connected = true)
    (h1 : ¬(now - refs.lastUpdateTime < CONTROL_UPDATE_INTERVAL))
    (h2 : (!hasMovement gs && !hasGripperInput gs) = false) :
    controlStep gs now refs = (some (buildControlMessage gs), ⟨now, some gs⟩) := by
  unfold controlStep
  simp [hc, h1, h2]

theorem buildControlMessage_deltas (gs : GamepadState) :
    (buildControlMessage gs).deltas =
      { x := gs.leftStick.x * (if gs.buttons.rb then 3/100 else 15/100)
        y := -gs.leftStick.y * (if gs.buttons.rb then 3/100 else 15/100)
        z := -gs.rightStick.y * (if gs.buttons.rb then 3/100 else 15/100)
        wrist := gs.rightStick.x * (if gs.buttons.rb then 3/100 else 15/100) } := by
  unfold buildControlMessage
  repeat' split
  all_goals rfl

theorem buildControlMessage_gripper (gs : GamepadState) :
    (buildControlMessage gs).gripper =
      some (if gs.buttons.rt > 1/2 then "open"
        else if gs.buttons.lt > 1/2 then "close" else "stay") := by
  unfold buildControlMessage
  repeat' split
  all_goals rfl

/-- Sample state: left stick deflected half-way, everything else at rest. -/
def gsMove : GamepadState :=
  { connected := true, leftStick := ⟨1/2, 0⟩, rightStick := ⟨0, 0⟩
    buttons := initButtons }

/-- Sample state: both sticks deflected with the precision button held. -/
def gsPrec : GamepadState :=
  { connected := true, leftStick := ⟨1/2, 1/4⟩, rightStick := ⟨1/8, -1/4⟩
    buttons := { initButtons with rb := true } }

/-- Sample state: both triggers past 0.5, sticks at rest. -/
def gsBoth : GamepadState :=
  { connected := true, leftStick := ⟨0, 0⟩, rightStick := ⟨0, 0⟩
    buttons := { initButtons with lt := 6/10, rt := 6/10 } }

/-- Sample state: sticks exactly zero, left trigger held. -/
def gsRest : GamepadState :=
  { connected := true, leftStick := ⟨0, 0⟩, rightStick := ⟨0, 0⟩
    buttons := { initButtons with lt := 6/10 } }

/-- Sample state: a tiny (sub-threshold) nonzero stick with left trigger held. -/
def gsTiny : GamepadState :=
  { connected := true, leftStick := ⟨1/200, 0⟩, rightStick := ⟨0, 0⟩
    buttons := { initButtons with lt := 6/10 } }

theorem hasMovement_gsMove : hasMovement gsMove = true := by
  unfold hasMovement gsMove
  norm_num [abs_of_pos]

theorem hasMovement_gsPrec : hasMovement gsPrec = true := by
  unfold hasMovement gsPrec
  norm_num [abs_of_pos]

theorem hasGripperInput_gsBoth : hasGripperInput gsBoth = true := by
  unfold hasGripperInput gsBoth
  norm_num

theorem hasGripperInput_gsRest : hasGripperInput gsRest = true := by
  unfold hasGripperInput gsRest
  norm_num

theorem hasGripperInput_gsTiny : hasGripperInput gsTiny = true := by
  unfold hasGripperInput gsTiny
  norm_num

theorem beyond_interval (a b : ℚ) (h : CONTROL_UPDATE_INTERVAL ≤ a - b) :
    ¬(a - b < CONTROL_UPDATE_INTERVAL) := not_lt.mpr h

/-- C1 counterexample: a command is sent at t = 1000; a tick at t = 1030,
only 30 ms (< 60 ms) later, with stick magnitude 0.5 still sends a command
(the code only suppresses below 1000/60 ≈ 16.67 ms). -/
theorem suppression_window_counterexample :
    (controlStep gsMove 1000 ⟨0, none⟩).1.isSome = true ∧
    (controlStep gsMove 1000 ⟨0, none⟩).2.lastUpdateTime = 1000 ∧
    (1030 : ℚ) - 1000 < 60 ∧
    (1/100 : ℚ) < |gsMove.leftStick.x| ∧
    (controlStep gsMove 1030 (controlStep gsMove 1000 ⟨0, none⟩).2).1.isSome = true := by
  have hm : (!hasMovement gsMove && !hasGripperInput gsMove) = false := by
    simp [hasMovement_gsMove]
  have h1 : controlStep gsMove 1000 ⟨0, none⟩ =
      (some (buildControlMessage gsMove), ⟨1000, some gsMove⟩) :=
    controlStep_sends _ _ _ rfl
      (by norm_num [CONTROL_UPDATE_INTERVAL, CONTROL_UPDATE_RATE]) hm
  have h2 : controlStep gsMove 1030 ⟨1000, some gsMove⟩ =
      (some (buildControlMessage gsMove), ⟨1030, some gsMove⟩) :=
    controlStep_sends _ _ _ rfl
      (by norm_num [CONTROL_UPDATE_INTERVAL, CONTROL_UPDATE_RATE]) hm
  refine ⟨by rw [h1]; rfl, by rw [h1], by norm_num, ?_, ?_⟩
  · show (1/100 : ℚ) < |(1:ℚ)/2|
    norm_num [abs_of_pos]
  · rw [h1]
    show (controlStep gsMove 1030 ⟨1000, some gsMove⟩).1.isSome = true
    rw [h2]
    rfl

/-- C1 (amended): a tick arriving less than `CONTROL_UPDATE_INTERVAL`
= 1000/60 ms after the previously sent command sends nothing and leaves the
refs unchanged, whatever the stick magnitudes. -/
theorem controlStep_suppresses_within_interval (gs : GamepadState) (now : ℚ)
    (refs : ControlRefs)
    (h : now - refs.lastUpdateTime < CONTROL_UPDATE_INTERVAL) :
    controlStep gs now refs = (none, refs) := by
  unfold controlStep
  cases hc : gs.connected <;> simp [hc, h]

/-- Witness for `controlStep_suppresses_within_interval`: a moving stick
10 ms after the last send is suppressed. -/
theorem controlStep_suppresses_within_interval_witness :
    ((10 : ℚ) - 0 < CONTROL_UPDATE_INTERVAL) ∧
    controlStep gsMove 10 ⟨0, none⟩ = (none, ⟨0, none⟩) :=
  ⟨by norm_num [CONTROL_UPDATE_INTERVAL, CONTROL_UPDATE_RATE],
    controlStep_suppresses_within_interval gsMove 10 ⟨0, none⟩
      (by norm_num [CONTROL_UPDATE_INTERVAL, CONTROL_UPDATE_RATE])⟩

/-- C7: every sent command scales the stick axes by 0.03 with `rb` held and
0.15 otherwise, with `deltas.x = leftStick.x * m`, `deltas.y = -leftStick.y * m`,
`deltas.z = -rightStick.y * m`, `deltas.wrist = rightStick.x * m`. -/
theorem sent_command_deltas (gs : GamepadState) (now : ℚ) (refs : ControlRefs)
    (msg : GamepadControlMessage) (refs' : ControlRefs)
    (h : controlStep gs now refs = (some msg, refs')) :
    msg.deltas.x = gs.leftStick.x * (if gs.buttons.rb then 3/100 else 15/100) ∧
    msg.deltas.y = -gs.leftStick.y * (if gs.buttons.rb then 3/100 else 15/100) ∧
    msg.deltas.z = -gs.rightStick.y * (if gs.buttons.rb then 3/100 else 15/100) ∧
    msg.deltas.wrist = gs.rightStick.x * (if gs.buttons.rb then 3/100 else 15/100) := by
  rw [controlStep_sent gs now refs msg refs' h, buildControlMessage_deltas gs]
  exact ⟨rfl, rfl, rfl, rfl⟩

/-- Witness for `sent_command_deltas` in precision mode. -/
theorem sent_command_deltas_witness :
    (buildControlMessage gsPrec).deltas.x =
      gsPrec.leftStick.x * (if gsPrec.buttons.rb then 3/100 else 15/100) ∧
    (buildControlMessage gsPrec).deltas.y =
      -gsPrec.leftStick.y * (if gsPrec.buttons.rb then 3/100 else 15/100) ∧
    (buildControlMessage gsPrec).deltas.z =
      -gsPrec.rightStick.y * (if gsPrec.buttons.rb then 3/100 else 15/100) ∧
    (buildControlMessage gsPrec).deltas.wrist =
      gsPrec.rightStick.x * (if gsPrec.buttons.rb then 3/100 else 15/100) :=
  sent_command_deltas gsPrec 1000 ⟨0, none⟩ (buildControlMessage gsPrec)
    ⟨1000, some gsPrec⟩
    (controlStep_sends _ _ _ rfl
      (by norm_num [CONTROL_UPDATE_INTERVAL, CONTROL_UPDATE_RATE])
      (by simp [hasMovement_gsPrec]))

/-- C8: every sent command carries exactly one gripper value: "open" when the
right trigger exceeds 0.5 (taking priority), else "close" when the left
trigger exceeds 0.5, else "stay". -/
theorem sent_command_gripper (gs : GamepadState) (now : ℚ) (refs : ControlRefs)
    (msg : GamepadControlMessage) (refs' : ControlRefs)
    (h : controlStep gs now refs = (some msg, refs')) :
    msg.gripper = some (if gs.buttons.rt > 1/2 then "open"
      else if gs.buttons.lt > 1/2 then "close" else "stay") := by
  rw [controlStep_sent gs now refs msg refs' h, buildControlMessage_gripper gs]

/-- Witness for `sent_command_gripper`: both triggers at 0.6 yield "open". -/
theorem sent_command_gripper_witness :
    (buildControlMessage gsBoth).gripper = some "open" := by
  have h := sent_command_gripper gsBoth 1000 ⟨0, none⟩ (buildControlMessage gsBoth)
    ⟨1000, some gsBoth⟩
    (controlStep_sends _ _ _ rfl
      (by norm_num [CONTROL_UPDATE_INTERVAL, CONTROL_UPDATE_RATE])
      (by simp [hasGripperInput_gsBoth]))
  rw [h]
  rw [show gsBoth.buttons.rt = 6/10 from rfl]
  rw [if_pos (by norm_num : (6:ℚ)/10 > 1/2)]

/-- C9 counterexample: a command sent with every stick magnitude at or below
the 0.01 threshold (left stick x = 1/200, gripper input active) has
`deltas.x = 3/4000 ≠ 0`. -/
theorem zero_deltas_counterexample :
    |gsTiny.leftStick.x| ≤ 1/100 ∧ |gsTiny.leftStick.y| ≤ 1/100 ∧
    |gsTiny.rightStick.x| ≤ 1/100 ∧ |gsTiny.rightStick.y| ≤ 1/100 ∧
    ((controlStep gsTiny 1000 ⟨0, none⟩).1.map fun m => m.deltas.x)
      = some (3/4000) ∧
    (3/4000 : ℚ) ≠ 0 := by
  have h : controlStep gsTiny 1000 ⟨0, none⟩ =
      (some (buildControlMessage gsTiny), ⟨1000, some gsTiny⟩) :=
    controlStep_sends _ _ _ rfl
      (by norm_num [CONTROL_UPDATE_INTERVAL, CONTROL_UPDATE_RATE])
      (by simp [hasGripperInput_gsTiny])
  refine ⟨?_, ?_, ?_, ?_, ?_, by norm_num⟩
  · show |(1:ℚ)/200| ≤ 1/100
    norm_num [abs_of_pos]
  · show |(0:ℚ)| ≤ 1/100
    norm_num
  · show |(0:ℚ)| ≤ 1/100
    norm_num
  · show |(0:ℚ)| ≤ 1/100
    norm_num
  · rw [h]
    show some (buildControlMessage gsTiny).deltas.x = some (3/4000)
    rw [buildControlMessage_deltas]
    show some ((1:ℚ)/200 * (if gsTiny.buttons.rb then (3:ℚ)/100 else 15/100))
      = some (3/4000)
    rw [show gsTiny.buttons.rb = false from rfl]
    norm_num

/-- C9 (amended): a sent command whose stick axes are all exactly zero has
all four deltas exactly zero. -/
theorem sent_command_zero_deltas (gs : GamepadState) (now : ℚ)
    (refs : ControlRefs) (msg : GamepadControlMessage) (refs' : ControlRefs)
    (h : controlStep gs now refs = (some msg, refs'))
    (hx : gs.leftStick.x = 0) (hy : gs.leftStick.y = 0)
    (hrx : gs.rightStick.x = 0) (hry : gs.rightStick.y = 0) :
    msg.deltas = ⟨0, 0, 0, 0⟩ := by
  rw [controlStep_sent gs now refs msg refs' h, buildControlMessage_deltas gs,
    hx, hy, hrx, hry]
  simp

/-- Witness for `sent_command_zero_deltas`: sticks at rest, left trigger held
(so a command is sent). -/
theorem sent_command_zero_deltas_witness :
    (buildControlMessage gsRest).deltas = ⟨0, 0, 0, 0⟩ :=
  sent_command_zero_deltas gsRest 1000 ⟨0, none⟩ (buildControlMessage gsRest)
    ⟨1000, some gsRest⟩
    (controlStep_sends _ _ _ rfl
      (by norm_num [CONTROL_UPDATE_INTERVAL, CONTROL_UPDATE_RATE])
      (by simp [hasGripperInput_gsRest]))
    rfl rfl rfl rfl

/-! ## Poller range invariant (C4) and disconnect frame effect (C10) -/

theorem abs_applyDeadzone_le_one (v d : ℚ) (hd1 : d < 1) (hv : |v| ≤ 1) :
    |applyDeadzone v d| ≤ 1 := by
  have h1d : (0:ℚ) < 1 - d := by linarith
  unfold applyDeadzone
  split
  · norm_num
  · rename_i hge
    push_neg at hge
    rw [abs_mul]
    have hsign : |if 0 < v then (1:ℚ) else -1| = 1 := by split <;> norm_num
    rw [hsign, one_mul, abs_div, abs_of_nonneg (by linarith : (0:ℚ) ≤ |v| - d),
      abs_of_pos h1d, div_le_one h1d]
    linarith

/-- A conditioned, sensitivity-scaled, possibly inverted axis stays in
`[-1,1]` when the raw reading is in `[-1,1]` and the gain is in `[0,1]`. -/
theorem abs_axis_le_one (v d s : ℚ) (inv : Bool) (hd1 : d < 1) (hv : |v| ≤ 1)
    (hs0 : 0 ≤ s) (hs1 : s ≤ 1) :
    |applyDeadzone v d * s * (if inv then -1 else 1)| ≤ 1 := by
  rw [abs_mul, abs_mul]
  have hinv : |if inv then (-1:ℚ) else 1| = 1 := by split <;> norm_num
  rw [hinv, mul_one, abs_of_nonneg hs0]
  calc |applyDeadzone v d| * s ≤ 1 * 1 :=
        mul_le_mul (abs_applyDeadzone_le_one v d hd1 hv) hs1 hs0 zero_le_one
    _ = 1 := one_mul 1

/-- Trigger-range invariant carried through the button fold. -/
def ltrtBounds (bs : GamepadButtons) : Prop :=
  0 ≤ bs.lt ∧ bs.lt ≤ 1 ∧ 0 ≤ bs.rt ∧ bs.rt ≤ 1

theorem setButton_bounds (bs : GamepadButtons) (name : ButtonName)
    (btn : RawButton) (s : ℚ) (hb : ltrtBounds bs)
    (hv : 0 ≤ btn.value ∧ btn.value ≤ 1) (hs : 0 ≤ s ∧ s ≤ 1) :
    ltrtBounds (setButton bs name btn s) := by
  have hmul0 : 0 ≤ btn.value * s := mul_nonneg hv.1 hs.1
  have hmul1 : btn.value * s ≤ 1 := by
    calc btn.value * s ≤ 1 * 1 := mul_le_mul hv.2 hs.2 hs.1 zero_le_one
      _ = 1 := one_mul 1
  cases name <;>
    simp only [setButton, ltrtBounds] at hb ⊢ <;>
    exact ⟨by first | exact hb.1 | exact hmul0,
      by first | exact hb.2.1 | exact hmul1,
      by first | exact hb.2.2.1 | exact hmul0,
      by first | exact hb.2.2.2 | exact hmul1⟩

theorem readButtonsAux_bounds (s : ℚ) (hs : 0 ≤ s ∧ s ≤ 1) :
    ∀ (l : List RawButton) (i : ℕ) (bs : GamepadButtons),
      (∀ b ∈ l, 0 ≤ b.value ∧ b.value ≤ 1) → ltrtBounds bs →
      ltrtBounds (readButtonsAux s i l bs)
  | [], _, _, _, hbs => hbs
  | btn :: rest, i, bs, hl, hbs => by
    unfold readButtonsAux
    apply readButtonsAux_bounds s hs rest (i + 1)
    · intro b hb
      exact hl b (List.mem_cons_of_mem btn hb)
    · cases hmap : GAMEPAD_BUTTON_MAPPING i with
      | none => simpa [hmap] using hbs
      | some name =>
        simpa [hmap] using
          setButton_bounds bs name btn s hbs (hl btn (List.mem_cons_self btn rest)) hs

theorem readButtons_bounds (btns : List RawButton) (s : ℚ) (hs : 0 ≤ s ∧ s ≤ 1)
    (hl : ∀ b ∈ btns, 0 ≤ b.value ∧ b.value ≤ 1) :
    ltrtBounds (readButtons btns s) :=
  readButtonsAux_bounds s hs btns 0 initButtons hl
    (by constructor <;> norm_num [initButtons])

theorem readSnapshot_leftStick_x (g : RawGamepad) (cfg : GamepadConfig) :
    (readSnapshot g cfg).leftStick.x =
      applyDeadzone g.axes0 cfg.deadzone * cfg.sensitivity.leftStick := rfl

theorem readSnapshot_leftStick_y (g : RawGamepad) (cfg : GamepadConfig) :
    (readSnapshot g cfg).leftStick.y =
      applyDeadzone g.axes1 cfg.deadzone * cfg.sensitivity.leftStick *
        (if cfg.invertY then -1 else 1) := rfl

theorem readSnapshot_rightStick_x (g : RawGamepad) (cfg : GamepadConfig) :
    (readSnapshot g cfg).rightStick.x =
      applyDeadzone g.axes2 cfg.deadzone * cfg.sensitivity.rightStick := rfl

theorem readSnapshot_rightStick_y (g : RawGamepad) (cfg : GamepadConfig) :
    (readSnapshot g cfg).rightStick.y =
      applyDeadzone g.axes3 cfg.deadzone * cfg.sensitivity.rightStick *
        (if cfg.invertY then -1 else 1) := rfl

theorem readSnapshot_buttons (g : RawGamepad) (cfg : GamepadConfig) :
    (readSnapshot g cfg).buttons = readButtons g.buttons cfg.sensitivity.triggers := rfl

/-- C4 counterexample: a raw axis overshooting to 2 under the default config
yields a snapshot stick component of 19/9, outside the declared `[-1,1]`. -/
theorem snapshot_range_counterexample :
    (readSnapshot { axes0 := 2, axes1 := 0, axes2 := 0, axes3 := 0, buttons := [] }
        DEFAULT_GAMEPAD_CONFIG).leftStick.x = 19/9 ∧
    ¬((19:ℚ)/9 ≤ 1) := by
  refine ⟨?_, by norm_num⟩
  rw [readSnapshot_leftStick_x]
  show applyDeadzone 2 (1/10) * 1 = 19/9
  unfold applyDeadzone
  rw [if_neg (by norm_num [abs_of_pos] : ¬(|(2:ℚ)| < 1/10)),
    if_pos (by norm_num : (0:ℚ) < 2)]
  norm_num [abs_of_pos]

/-- C4 (amended): when the raw axes are in `[-1,1]`, raw button values in
`[0,1]`, `deadzone ∈ [0,1)` and every sensitivity gain in `[0,1]`, the
snapshot's analog fields are within their declared ranges, and an axis
resting below the deadzone conditions to exactly 0. -/
theorem snapshot_ranges (g : RawGamepad) (cfg : GamepadConfig)
    (hd0 : 0 ≤ cfg.deadzone) (hd1 : cfg.deadzone < 1)
    (hls0 : 0 ≤ cfg.sensitivity.leftStick) (hls1 : cfg.sensitivity.leftStick ≤ 1)
    (hrs0 : 0 ≤ cfg.sensitivity.rightStick) (hrs1 : cfg.sensitivity.rightStick ≤ 1)
    (hts0 : 0 ≤ cfg.sensitivity.triggers) (hts1 : cfg.sensitivity.triggers ≤ 1)
    (ha0 : |g.axes0| ≤ 1) (ha1 : |g.axes1| ≤ 1)
    (ha2 : |g.axes2| ≤ 1) (ha3 : |g.axes3| ≤ 1)
    (hb : ∀ b ∈ g.buttons, 0 ≤ b.value ∧ b.value ≤ 1) :
    |(readSnapshot g cfg).leftStick.x| ≤ 1 ∧
    |(readSnapshot g cfg).leftStick.y| ≤ 1 ∧
    |(readSnapshot g cfg).rightStick.x| ≤ 1 ∧
    |(readSnapshot g cfg).rightStick.y| ≤ 1 ∧
    0 ≤ (readSnapshot g cfg).buttons.lt ∧ (readSnapshot g cfg).buttons.lt ≤ 1 ∧
    0 ≤ (readSnapshot g cfg).buttons.rt ∧ (readSnapshot g cfg).buttons.rt ≤ 1 ∧
    (|g.axes0| < cfg.deadzone → (readSnapshot g cfg).leftStick.x = 0) ∧
    (|g.axes1| < cfg.deadzone → (readSnapshot g cfg).leftStick.y = 0) ∧
    (|g.axes2| < cfg.deadzone → (readSnapshot g cfg).rightStick.x = 0) ∧
    (|g.axes3| < cfg.deadzone → (readSnapshot g cfg).rightStick.y = 0) := by
  have hbt := readButtons_bounds g.buttons cfg.sensitivity.triggers ⟨hts0, hts1⟩ hb
  rw [ltrtBounds] at hbt
  refine ⟨?_, ?_, ?_, ?_, ?_, ?_, ?_, ?_, ?_, ?_, ?_, ?_⟩
  · rw [readSnapshot_leftStick_x]
    have := abs_axis_le_one g.axes0 cfg.deadzone cfg.sensitivity.leftStick false hd1 ha0 hls0 hls1
    simpa using this
  · rw [readSnapshot_leftStick_y]
    exact abs_axis_le_one g.axes1 cfg.deadzone cfg.sensitivity.leftStick cfg.invertY hd1 ha1 hls0 hls1
  · rw [readSnapshot_rightStick_x]
    have := abs_axis_le_one g.axes2 cfg.deadzone cfg.sensitivity.rightStick false hd1 ha2 hrs0 hrs1
    simpa using this
  · rw [readSnapshot_rightStick_y]
    exact abs_axis_le_one g.axes3 cfg.deadzone cfg.sensitivity.rightStick cfg.invertY hd1 ha3 hrs0 hrs1
  · rw [readSnapshot_buttons]
    exact hbt.1
  · rw [readSnapshot_buttons]
    exact hbt.2.1
  · rw [readSnapshot_buttons]
    exact hbt.2.2.1
  · rw [readSnapshot_buttons]
    exact hbt.2.2.2
  · intro h
    rw [readSnapshot_leftStick_x, applyDeadzone_of_lt _ _ h, zero_mul]
  · intro h
    rw [readSnapshot_leftStick_y, applyDeadzone_of_lt _ _ h, zero_mul, zero_mul]
  · intro h
    rw [readSnapshot_rightStick_x, applyDeadzone_of_lt _ _ h, zero_mul]
  · intro h
    rw [readSnapshot_rightStick_y, applyDeadzone_of_lt _ _ h, zero_mul, zero_mul]

/-- Sample raw gamepad inside nominal ranges, with `axes1` resting below the
default deadzone. -/
def gpadSample : RawGamepad :=
  { axes0 := 1/2, axes1 := 1/20, axes2 := -1, axes3 := 1
    buttons := [⟨false, 1⟩, ⟨true, 1/2⟩] }

/-- Witness for `snapshot_ranges` at `gpadSample` with the default config. -/
theorem snapshot_ranges_witness :
    |(readSnapshot gpadSample DEFAULT_GAMEPAD_CONFIG).leftStick.x| ≤ 1 ∧
    |(readSnapshot gpadSample DEFAULT_GAMEPAD_CONFIG).leftStick.y| ≤ 1 ∧
    |(readSnapshot gpadSample DEFAULT_GAMEPAD_CONFIG).rightStick.x| ≤ 1 ∧
    |(readSnapshot gpadSample DEFAULT_GAMEPAD_CONFIG).rightStick.y| ≤ 1 ∧
    0 ≤ (readSnapshot gpadSample DEFAULT_GAMEPAD_CONFIG).buttons.lt ∧
    (readSnapshot gpadSample DEFAULT_GAMEPAD_CONFIG).buttons.lt ≤ 1 ∧
    0 ≤ (readSnapshot gpadSample DEFAULT_GAMEPAD_CONFIG).buttons.rt ∧
    (readSnapshot gpadSample DEFAULT_GAMEPAD_CONFIG).buttons.rt ≤ 1 ∧
    (|gpadSample.axes0| < DEFAULT_GAMEPAD_CONFIG.deadzone →
      (readSnapshot gpadSample DEFAULT_GAMEPAD_CONFIG).leftStick.x = 0) ∧
    (|gpadSample.axes1| < DEFAULT_GAMEPAD_CONFIG.deadzone →
      (readSnapshot gpadSample DEFAULT_GAMEPAD_CONFIG).leftStick.y = 0) ∧
    (|gpadSample.axes2| < DEFAULT_GAMEPAD_CONFIG.deadzone →
      (readSnapshot gpadSample DEFAULT_GAMEPAD_CONFIG).rightStick.x = 0) ∧
    (|gpadSample.axes3| < DEFAULT_GAMEPAD_CONFIG.deadzone →
      (readSnapshot gpadSample DEFAULT_GAMEPAD_CONFIG).rightStick.y = 0) :=
  snapshot_ranges gpadSample DEFAULT_GAMEPAD_CONFIG
    (by norm_num [DEFAULT_GAMEPAD_CONFIG])
    (by norm_num [DEFAULT_GAMEPAD_CONFIG])
    (by norm_num [DEFAULT_GAMEPAD_CONFIG])
    (by norm_num [DEFAULT_GAMEPAD_CONFIG])
    (by norm_num [DEFAULT_GAMEPAD_CONFIG])
    (by norm_num [DEFAULT_GAMEPAD_CONFIG])
    (by norm_num [DEFAULT_GAMEPAD_CONFIG])
    (by norm_num [DEFAULT_GAMEPAD_CONFIG])
    (by norm_num [gpadSample, abs_le])
    (by norm_num [gpadSample, abs_le])
    (by norm_num [gpadSample, abs_le])
    (by norm_num [gpadSample, abs_le])
    (by
      intro b hb
      simp only [gpadSample, List.mem_cons, List.not_mem_nil, or_false] at hb
      rcases hb with h | h <;> rw [h] <;> norm_num)

/-- C10: a poll that finds the bound index dead unbinds the index and flips
only the `connected` flag; sticks and buttons keep their last polled values. -/
theorem poll_dead_device (gps : List (Option RawGamepad)) (cfg : GamepadConfig)
    (i : ℕ) (prev : GamepadState) (h : getGamepadAt gps i = none) :
    (pollGamepad gps cfg (some i) prev).1 = none ∧
    (pollGamepad gps cfg (some i) prev).2.connected = false ∧
    (pollGamepad gps cfg (some i) prev).2.leftStick = prev.leftStick ∧
    (pollGamepad gps cfg (some i) prev).2.rightStick = prev.rightStick ∧
    (pollGamepad gps cfg (some i) prev).2.buttons = prev.buttons := by
  have heq : pollGamepad gps cfg (some i) prev =
      (none, { prev with connected := false }) := by
    unfold pollGamepad
    simp [h]
  rw [heq]
  exact ⟨rfl, rfl, rfl, rfl, rfl⟩

/-- Witness for `poll_dead_device`: a one-slot array whose device vanished,
with a nonzero previous snapshot. -/
theorem poll_dead_device_witness :
    (pollGamepad [none] DEFAULT_GAMEPAD_CONFIG (some 0) gsMove).1 = none ∧
    (pollGamepad [none] DEFAULT_GAMEPAD_CONFIG (some 0) gsMove).2.connected = false ∧
    (pollGamepad [none] DEFAULT_GAMEPAD_CONFIG (some 0) gsMove).2.leftStick = gsMove.leftStick ∧
    (pollGamepad [none] DEFAULT_GAMEPAD_CONFIG (some 0) gsMove).2.rightStick = gsMove.rightStick ∧
    (pollGamepad [none] DEFAULT_GAMEPAD_CONFIG (some 0) gsMove).2.buttons = gsMove.buttons :=
  poll_dead_device [none] DEFAULT_GAMEPAD_CONFIG 0 gsMove rfl

/-! ## Outbound message queue (gamepadService.ts)

The socket is modelled by whether it is open (`wsOpen`) and by an oracle
`sendOk` resolving which `ws.send` calls throw. `isProcessingQueue` is
always false on entry in the single-threaded execution model, so it does
not appear as state. -/

structure QueueResult where
  queue : List GamepadControlMessage
  sent : List GamepadControlMessage
deriving DecidableEq

/-- The `while (messageQueue.length > 0)` loop of `processMessageQueue`
(gamepadService.ts 42-53): shift the head, try to send it; on a throw,
unshift it back and break. -/
def drainQueue (sendOk : GamepadControlMessage → Bool) :
    List GamepadControlMessage → QueueResult
  | [] => { queue := [], sent := [] }
  | m :: rest =>
    if sendOk m then
      let r := drainQueue sendOk rest
      { r with sent := m :: r.sent }
    else
      { queue := m :: rest, sent := [] }

/-- `processMessageQueue` (gamepadService.ts 29-56): early return on an empty
queue or a non-open socket, else run the drain loop. -/
def processMessageQueue (wsOpen : Bool) (sendOk : GamepadControlMessage → Bool)
    (queue : List GamepadControlMessage) : QueueResult :=
  if queue.isEmpty then { queue := queue, sent := [] }
  else if !wsOpen then { queue := queue, sent := [] }
  else drainQueue sendOk queue

/-- `sendGamepadControl` (gamepadService.ts 7-27): queue when not open;
otherwise drain any queued messages first, then try to send the new
message, re-queuing it on a throw. -/
def sendGamepadControl (wsOpen : Bool) (sendOk : GamepadControlMessage → Bool)
    (queue : List GamepadControlMessage) (message : GamepadControlMessage) :
    QueueResult :=
  if !wsOpen then { queue := queue ++ [message], sent := [] }
  else
    let r := if !queue.isEmpty then processMessageQueue wsOpen sendOk queue
      else { queue := queue, sent := [] }
    if sendOk message then { queue := r.queue, sent := r.sent ++ [message] }
    else { queue := r.queue ++ [message], sent := r.sent }

theorem drainQueue_all_ok (sendOk : GamepadControlMessage → Bool) :
    ∀ q : List GamepadControlMessage, (∀ x ∈ q, sendOk x = true) →
      drainQueue sendOk q = ⟨[], q⟩
  | [], _ => rfl
  | m :: rest, h => by
    have hrest := drainQueue_all_ok sendOk rest
      (fun x hx => h x (List.mem_cons_of_mem m hx))
    simp [drainQueue, h m (List.mem_cons_self m rest), hrest]

theorem drainQueue_fail (sendOk : GamepadControlMessage → Bool)
    (f : GamepadControlMessage) (hf : sendOk f = false) :
    ∀ (q1 q2 : List GamepadControlMessage), (∀ x ∈ q1, sendOk x = true) →
      drainQueue sendOk (q1 ++ f :: q2) = ⟨f :: q2, q1⟩
  | [], q2, _ => by simp [drainQueue, hf]
  | m :: q1, q2, h => by
    have hrest := drainQueue_fail sendOk f hf q1 q2
      (fun x hx => h x (List.mem_cons_of_mem m hx))
    simp [drainQueue, h m (List.mem_cons_self m q1), hrest]

/-- C3: sending while the socket is not open appends to the FIFO queue (and,
never reaching `ws.send`, cannot throw); an open-socket send first drains the
queue in enqueue order and then transmits the new message; and a throw
mid-drain puts the failed message back at the front and aborts the drain. -/
theorem queue_semantics (sendOk : GamepadControlMessage → Bool)
    (q q1 q2 : List GamepadControlMessage) (m f : GamepadControlMessage) :
    sendGamepadControl false sendOk q m = ⟨q ++ [m], []⟩ ∧
    ((∀ x ∈ q, sendOk x = true) → sendOk m = true →
      sendGamepadControl true sendOk q m = ⟨[], q ++ [m]⟩) ∧
    ((∀ x ∈ q1, sendOk x = true) → sendOk f = false →
      processMessageQueue true sendOk (q1 ++ f :: q2) = ⟨f :: q2, q1⟩) := by
  refine ⟨by simp [sendGamepadControl], ?_, ?_⟩
  · intro hq hm
    cases q with
    | nil => simp [sendGamepadControl, processMessageQueue, hm]
    | cons a q' =>
      have hd := drainQueue_all_ok sendOk (a :: q') hq
      simp [sendGamepadControl, processMessageQueue, hm, hd]
  · intro h1 hf
    have hne : (q1 ++ f :: q2).isEmpty = false := by cases q1 <;> simp
    simp [processMessageQueue, hne, drainQueue_fail sendOk f hf q1 q2 h1]

def msgA : GamepadControlMessage :=
  { type := "gamepad_control", deltas := ⟨1, 0, 0, 0⟩
    gripper := some "stay", buttons := [] }

def msgB : GamepadControlMessage :=
  { type := "gamepad_control", deltas := ⟨2, 0, 0, 0⟩
    gripper := some "stay", buttons := [] }

def msgF : GamepadControlMessage :=
  { type := "gamepad_control", deltas := ⟨3, 0, 0, 0⟩
    gripper := some "stay", buttons := [] }

/-- Send oracle for the queue witness: only `msgF` (deltas.x = 3) throws. -/
def wOk (msg : GamepadControlMessage) : Bool := decide (msg.deltas.x ≠ 3)

theorem wOk_msgA : wOk msgA = true := by
  simp [wOk, msgA]

theorem wOk_msgB : wOk msgB = true := by
  simp [wOk, msgB]

theorem wOk_msgF : wOk msgF = false := by
  simp [wOk, msgF]

/-- Witness for `queue_semantics` on concrete messages. -/
theorem queue_semantics_witness :
    sendGamepadControl false wOk [msgA] msgB = ⟨[msgA, msgB], []⟩ ∧
    sendGamepadControl true wOk [msgA] msgB = ⟨[], [msgA, msgB]⟩ ∧
    processMessageQueue true wOk [msgA, msgF, msgB] = ⟨[msgF, msgB], [msgA]⟩ := by
  have h := queue_semantics wOk [msgA] [msgA] [msgB] msgB msgF
  have hA : ∀ x ∈ [msgA], wOk x = true := by
    intro x hx
    rw [List.mem_singleton] at hx
    rw [hx]
    exact wOk_msgA
  refine ⟨by simpa using h.1, by simpa using h.2.1 hA wOk_msgB, ?_⟩
  have h3 := h.2.2 hA wOk_msgF
  simpa using h3

/-! ## Transport session timers (SimulatorWebSocket)

Browser timers are modelled explicitly: `liveTimers` is the set of pending
reconnect timers (browser ids start at 1, so the JS truthiness test on
`this.reconnectTimeout` is modelled by `Option`), `reconnectTimeout` is the
instance field, and events (socket close, socket open, a timer firing, a
`disconnect()` call) drive a step function. -/

structure Timer where
  id : ℕ
  delay : ℕ
deriving DecidableEq

structure WSState where
  liveTimers : List Timer
  reconnectTimeout : Option ℕ
  nextId : ℕ
  socketOpen : Bool
deriving DecidableEq

/-- `window.clearTimeout`: cancel the pending timer with this id (no-op on a
dead id). -/
def clearTimeout (tid : ℕ) (ts : List Timer) : List Timer :=
  ts.filter (fun t => t.id != tid)

/-- `scheduleReconnect` (websocket.ts 48-56): clear any tracked timeout, then
set a fresh 1000 ms timer and remember its id. -/
def scheduleReconnect (s : WSState) : WSState :=
  let ts := match s.reconnectTimeout with
    | some tid => clearTimeout tid s.liveTimers
    | none => s.liveTimers
  { s with
    liveTimers := ts ++ [⟨s.nextId, 1000⟩]
    reconnectTimeout := some s.nextId
    nextId := s.nextId + 1 }

/-- `disconnect` (websocket.ts 80-87): clear any tracked timeout and close
the socket (whose close event is delivered later as a separate event). -/
def disconnect (s : WSState) : WSState :=
  let ts := match s.reconnectTimeout with
    | some tid => clearTimeout tid s.liveTimers
    | none => s.liveTimers
  { s with liveTimers := ts, socketOpen := false }

/-- A pending reconnect timer fires: it leaves the pending set and
`connect()` starts a new (not yet open) socket. -/
def fireTimer (tid : ℕ) (s : WSState) : WSState :=
  { s with liveTimers := clearTimeout tid s.liveTimers, socketOpen := false }

inductive WSEvent where
  | close
  | opened
  | timerFire (tid : ℕ)
  | teardown
deriving DecidableEq

/-- One scheduler step: the socket close event runs the `onclose` handler
(websocket.ts 38-41), which unconditionally calls `scheduleReconnect`. -/
def wsStep (s : WSState) (e : WSEvent) : WSState :=
  match e with
  | .close => scheduleReconnect { s with socketOpen := false }
  | .opened => { s with socketOpen := true }
  | .timerFire tid => fireTimer tid s
  | .teardown => disconnect s

def initialState : WSState :=
  { liveTimers := [], reconnectTimeout := none, nextId := 1, socketOpen := false }

/-- Session timer invariant: at most one pending reconnect timer, and every
pending timer is the tracked one, has the fixed 1000 ms delay, and has an id
older than the fresh-id counter. -/
def WSInv (s : WSState) : Prop :=
  s.liveTimers.length ≤ 1 ∧
  ∀ t ∈ s.liveTimers, s.reconnectTimeout = some t.id ∧ t.delay = 1000 ∧ t.id < s.nextId

theorem clearTimeout_tracked (tid : ℕ) (ts : List Timer)
    (h : ∀ t ∈ ts, t.id = tid) : clearTimeout tid ts = [] := by
  unfold clearTimeout
  rw [List.filter_eq_nil_iff]
  intro t ht
  simp [h t ht]

/-- `disconnect` never adds timers: the pending set shrinks (or is cleared). -/
theorem disconnect_liveTimers_subset (s : WSState) :
    (disconnect s).liveTimers.length ≤ s.liveTimers.length ∧
    ∀ t ∈ (disconnect s).liveTimers, t ∈ s.liveTimers := by
  unfold disconnect
  cases s.reconnectTimeout with
  | none => exact ⟨le_refl _, fun t ht => ht⟩
  | some tid =>
    exact ⟨List.length_filter_le _ _, fun t ht => List.mem_of_mem_filter ht⟩

theorem scheduleReconnect_liveTimers (s : WSState) (hInv : WSInv s) :
    (scheduleReconnect s).liveTimers = [⟨s.nextId, 1000⟩] := by
  unfold scheduleReconnect
  cases hr : s.reconnectTimeout with
  | none =>
    cases hl : s.liveTimers with
    | nil => simp
    | cons t ts =>
      have := (hInv.2 t (by rw [hl]; exact List.mem_cons_self t ts)).1
      rw [hr] at this
      exact absurd this (by simp)
  | some tid =>
    have hcl : clearTimeout tid s.liveTimers = [] := by
      apply clearTimeout_tracked
      intro t ht
      have := (hInv.2 t ht).1
      rw [hr] at this
      exact (Option.some.inj this).symm
    simp [hcl]

theorem wsInv_step (s : WSState) (e : WSEvent) (hInv : WSInv s) :
    WSInv (wsStep s e) := by
  cases e with
  | close =>
    have hl : (wsStep s WSEvent.close).liveTimers = [⟨s.nextId, 1000⟩] :=
      scheduleReconnect_liveTimers { s with socketOpen := false } hInv
    constructor
    · rw [hl]
      norm_num
    · intro t ht
      rw [hl, List.mem_singleton] at ht
      subst ht
      exact ⟨rfl, rfl, Nat.lt_succ_self s.nextId⟩
  | opened => exact hInv
  | timerFire tid =>
    constructor
    · exact le_trans (List.length_filter_le _ s.liveTimers) hInv.1
    · intro t ht
      exact hInv.2 t (List.mem_of_mem_filter ht)
  | teardown =>
    exact ⟨le_trans (disconnect_liveTimers_subset s).1 hInv.1,
      fun t ht => hInv.2 t ((disconnect_liveTimers_subset s).2 t ht)⟩

theorem wsInv_run_from (es : List WSEvent) :
    ∀ s : WSState, WSInv s → WSInv (es.foldl wsStep s) := by
  induction es with
  | nil => exact fun s hs => hs
  | cons e es ih => exact fun s hs => ih (wsStep s e) (wsInv_step s e hs)

theorem wsInv_initial : WSInv initialState := by
  constructor <;> simp [initialState]

/-- C6: in every reachable session state there is at most one pending
reconnect timer; a close event leaves exactly one pending timer, with the
fixed 1000 ms delay and a fresh id; hence any previously pending timer has
been cancelled and replaced, never accumulated. -/
theorem reconnect_timer_discipline (es : List WSEvent) :
    (es.foldl wsStep initialState).liveTimers.length ≤ 1 ∧
    (wsStep (es.foldl wsStep initialState) WSEvent.close).liveTimers =
      [⟨(es.foldl wsStep initialState).nextId, 1000⟩] ∧
    (∀ t ∈ (es.foldl wsStep initialState).liveTimers,
      t.id ≠ (es.foldl wsStep initialState).nextId) := by
  have hInv := wsInv_run_from es initialState wsInv_initial
  refine ⟨hInv.1, ?_, ?_⟩
  · exact scheduleReconnect_liveTimers _ hInv
  · intro t ht
    exact Nat.ne_of_lt ((hInv.2 t ht).2.2)

/-- Witness for `reconnect_timer_discipline`: two closes in a row never leave
two pending timers; a third close replaces the pending timer with id 3. -/
theorem reconnect_timer_discipline_witness :
    ([WSEvent.close, WSEvent.close].foldl wsStep initialState).liveTimers.length ≤ 1 ∧
    (wsStep ([WSEvent.close, WSEvent.close].foldl wsStep initialState)
      WSEvent.close).liveTimers = [⟨3, 1000⟩] :=
  ⟨(reconnect_timer_discipline [WSEvent.close, WSEvent.close]).1,
    (reconnect_timer_discipline [WSEvent.close, WSEvent.close]).2.1⟩

/-- A session state with an open connection and no pending timers. -/
def openIdle : WSState :=
  { liveTimers := [], reconnectTimeout := none, nextId := 1, socketOpen := true }

/-- C5 (bug exhibit): `disconnect()` on an open connection with no pending
timer closes the socket, but the socket's close event then runs the
unconditional `onclose` handler, so a reconnect timer is pending after
teardown — a reconnect is scheduled (and would connect 1 s later). -/
theorem teardown_reconnect_bug :
    (wsStep (wsStep openIdle WSEvent.teardown) WSEvent.close).liveTimers
      = [⟨1, 1000⟩] := rfl

end Assembler0
